import Mathlib

/-!
Verification development for the esd_process crawl/query/ledger orchestrator.

The definitions below are a shallow embedding of the Python sources:
  * `esd_process/ncei_backend.py`  (SqlBackend: the survey ledger)
  * `esd_process/ncei_scrape.py`   (NceiScrape: crawler, connection layer)
  * `esd_process/ncei_query.py`    (NceiQuery: chunked identifier paging)
  * `esd_process/kluster_process.py` (run_kluster: external processing handoff)

Python strings become `String`, Python ints become `Nat`, the sqlite table
becomes a `List SurveyRow` (rows in insertion order), and log calls become a
`List LogEvent`.  Fallible external calls (HTTP responses, the kluster
collaborator) are passed in as explicit data so the control flow of the
embedded functions mirrors the source exactly.
-/

namespace EsdProcess

/-- Model of Python `str.lower()`: lower each character.  (The source only
lowercases ASCII ship and survey names.)  Defined character-wise so it is
kernel-evaluable. -/
def py_lower (s : String) : String := ⟨s.data.map Char.toLower⟩

/-- Model of Python `str.replace(' ', '_')` as used in
`NceiScrape._allow_shipname_surveyname` (ncei_scrape.py line 159): the pattern
is the single character space, so the replacement is a character map. -/
def replace_space_underscore (s : String) : String :=
  ⟨s.data.map fun c => if c = ' ' then '_' else c⟩

/-- Severity of a log call, mirroring the logging levels used by the source. -/
inductive LogLevel where
  | info
  | warning
  | error
deriving DecidableEq, Repr

/-- One log call: a level and a message. -/
structure LogEvent where
  level : LogLevel
  message : String
deriving DecidableEq, Repr

/-- One row of the `surveys` sqlite table, schema from `SqlBackend._create_backend`
(ncei_backend.py lines 81-83): ship_name, survey, downloaded_success,
downloaded_error, ignored, raw_data_path, processed_data_path, grid_path. -/
structure SurveyRow where
  ship_name : String
  survey : String
  downloaded_success : Nat
  downloaded_error : Nat
  ignored : Nat
  raw_data_path : String
  processed_data_path : String
  grid_path : String
deriving DecidableEq, Repr

/-- The mutable attributes of `BaseBackend.__init__` (ncei_backend.py lines 12-24)
threaded through the scrape, together with the sqlite table (`db`) and the log
sink.  Field defaults are the initial values assigned in `__init__`. -/
structure ScrapeState where
  downloaded_success_count : Nat := 0
  downloaded_error_count : Nat := 0
  ignored_count : Nat := 0
  ship_name : String := ""
  survey_name : String := ""
  survey_url : String := ""
  raw_data_path : String := ""
  processed_data_path : String := ""
  grid_path : String := ""
  db : List SurveyRow := []
  logs : List LogEvent := []
deriving DecidableEq, Repr

/-- Embeds `SqlBackend._check_for_survey` (ncei_backend.py lines 107-115):
the SELECT matches rows whose stored `ship_name` and `survey` equal the
lowercased inputs; sqlite text equality is exact (case-sensitive). -/
def check_for_survey (db : List SurveyRow) (shipname surveyname : String) : Bool :=
  db.any fun row => row.ship_name == py_lower shipname && row.survey == py_lower surveyname

/-- Embeds `SqlBackend._check_for_grid` (ncei_backend.py lines 117-126): same
match as `check_for_survey` plus `grid_path != ""`. -/
def check_for_grid (db : List SurveyRow) (shipname surveyname : String) : Bool :=
  db.any fun row =>
    row.ship_name == py_lower shipname && row.survey == py_lower surveyname &&
      row.grid_path != ""

/-- The row written by `SqlBackend._add_survey` (ncei_backend.py lines 93-95):
both names lowercased, the rest of the accumulator fields verbatim. -/
def inserted_row (st : ScrapeState) : SurveyRow :=
  { ship_name := py_lower st.ship_name
    survey := py_lower st.survey_name
    downloaded_success := st.downloaded_success_count
    downloaded_error := st.downloaded_error_count
    ignored := st.ignored_count
    raw_data_path := st.raw_data_path
    processed_data_path := st.processed_data_path
    grid_path := st.grid_path }

/-- Embeds `SqlBackend._add_survey` (ncei_backend.py lines 86-105): when both
names are non-empty (Python truthiness) and the (ship, survey) pair is not
already present, INSERT one row (logging one INFO event); in every case reset
the per-survey accumulator attributes to their defaults afterwards (lines
97-105).  `survey_url` is not reset by the source and is not reset here. -/
def add_survey (st : ScrapeState) : ScrapeState :=
  let inserting :=
    st.ship_name != "" && st.survey_name != "" &&
      !(check_for_survey st.db st.ship_name st.survey_name)
  let db' := if inserting then st.db ++ [inserted_row st] else st.db
  let logs' :=
    if inserting then
      st.logs ++ [⟨LogLevel.info,
        "Adding new data for " ++ st.ship_name ++ "/" ++ st.survey_name ++ " to sqlite database"⟩]
    else st.logs
  { st with
    db := db'
    logs := logs'
    ship_name := ""
    survey_name := ""
    downloaded_success_count := 0
    downloaded_error_count := 0
    ignored_count := 0
    raw_data_path := ""
    processed_data_path := ""
    grid_path := "" }

theorem add_survey_db_eq (st : ScrapeState) :
    (add_survey st).db =
      st.db ++
        (if st.ship_name != "" && st.survey_name != "" &&
            !(check_for_survey st.db st.ship_name st.survey_name)
         then [inserted_row st] else []) := by
  unfold add_survey
  cases hc : (st.ship_name != "" && st.survey_name != "" &&
      !(check_for_survey st.db st.ship_name st.survey_name)) <;>
    simp only [hc, if_true, if_false, Bool.false_eq_true, List.append_nil]

theorem add_survey_logs_eq (st : ScrapeState) :
    (add_survey st).logs =
      st.logs ++
        (if st.ship_name != "" && st.survey_name != "" &&
            !(check_for_survey st.db st.ship_name st.survey_name)
         then [⟨LogLevel.info,
            "Adding new data for " ++ st.ship_name ++ "/" ++ st.survey_name ++
              " to sqlite database"⟩]
         else []) := by
  unfold add_survey
  cases hc : (st.ship_name != "" && st.survey_name != "" &&
      !(check_for_survey st.db st.ship_name st.survey_name)) <;>
    simp only [hc, if_true, if_false, Bool.false_eq_true, List.append_nil]

/-- C6: the Ledger commit operation appends exactly one row (with both names
lowercased) exactly when both names are non-empty and the pair is absent; in
every other case the table and the log are unchanged (silent no-op); existing
rows are never updated or replaced, only ever appended after. -/
theorem add_survey_commit_semantics (st : ScrapeState) :
    (add_survey st).db =
      st.db ++
        (if st.ship_name != "" && st.survey_name != "" &&
            !(check_for_survey st.db st.ship_name st.survey_name)
         then [inserted_row st] else []) ∧
    (add_survey st).logs =
      st.logs ++
        (if st.ship_name != "" && st.survey_name != "" &&
            !(check_for_survey st.db st.ship_name st.survey_name)
         then [⟨LogLevel.info,
            "Adding new data for " ++ st.ship_name ++ "/" ++ st.survey_name ++
              " to sqlite database"⟩]
         else []) ∧
    (add_survey st).db.take st.db.length = st.db :=
  ⟨add_survey_db_eq st, add_survey_logs_eq st, by
    rw [add_survey_db_eq st]
    exact List.take_left st.db _⟩

/-- C10: every call to the commit operation, including no-op calls, resets the
per-survey accumulator attributes to their defaults. -/
theorem add_survey_resets_accumulators (st : ScrapeState) :
    (add_survey st).ship_name = "" ∧
    (add_survey st).survey_name = "" ∧
    (add_survey st).raw_data_path = "" ∧
    (add_survey st).processed_data_path = "" ∧
    (add_survey st).grid_path = "" ∧
    (add_survey st).downloaded_success_count = 0 ∧
    (add_survey st).downloaded_error_count = 0 ∧
    (add_survey st).ignored_count = 0 := by
  unfold add_survey
  exact ⟨rfl, rfl, rfl, rfl, rfl, rfl, rfl, rfl⟩

/-- C5: committing a record with non-empty mixed-case names leaves the table
with a row holding both names lowercased, and the existence check then answers
true for the same pair supplied in any letter case. -/
theorem add_survey_roundtrip_case_insensitive (st : ScrapeState) (q r : String)
    (hship : st.ship_name ≠ "") (hsurvey : st.survey_name ≠ "")
    (hq : py_lower q = py_lower st.ship_name) (hr : py_lower r = py_lower st.survey_name) :
    check_for_survey (add_survey st).db q r = true ∧
    ∃ row ∈ (add_survey st).db,
      row.ship_name = py_lower st.ship_name ∧ row.survey = py_lower st.survey_name := by
  rw [add_survey_db_eq st]
  by_cases hpresent : check_for_survey st.db st.ship_name st.survey_name = true
  · -- the pair was already present: the matching stored row is already lowercase
    rw [check_for_survey, List.any_eq_true] at hpresent
    obtain ⟨row, hrowmem, hrowmatch⟩ := hpresent
    simp only [Bool.and_eq_true, beq_iff_eq] at hrowmatch
    constructor
    · rw [check_for_survey, List.any_eq_true]
      refine ⟨row, List.mem_append_left _ hrowmem, ?_⟩
      simp [hrowmatch.1, hrowmatch.2, hq, hr]
    · exact ⟨row, List.mem_append_left _ hrowmem, hrowmatch.1, hrowmatch.2⟩
  · -- the pair was absent: the freshly inserted row matches
    have hguard : (st.ship_name != "" && st.survey_name != "" &&
        !(check_for_survey st.db st.ship_name st.survey_name)) = true := by
      simp [hship, hsurvey, hpresent]
    rw [if_pos hguard]
    constructor
    · rw [check_for_survey, List.any_eq_true]
      refine ⟨inserted_row st, List.mem_append_right _ (List.mem_singleton.mpr rfl), ?_⟩
      simp [inserted_row, hq, hr]
    · exact ⟨inserted_row st, List.mem_append_right _ (List.mem_singleton.mpr rfl), rfl, rfl⟩

/-- Witness for C5 at a concrete mixed-case input. -/
theorem add_survey_roundtrip_witness :
    check_for_survey
      (add_survey { ship_name := "Alpha", survey_name := "S1" : ScrapeState }).db
      "ALPHA" "s1" = true := by
  have h := add_survey_roundtrip_case_insensitive
    { ship_name := "Alpha", survey_name := "S1" : ScrapeState } "ALPHA" "s1"
    (by decide) (by decide) (by decide) (by decide)
  exact h.1

/-! ### Crawl skip decision (ncei_scrape.py `_allow_shipname_surveyname`) -/

/-- The ship name the region restriction pairs with a survey name:
`self.region_ship_name[self.region_survey_name.index(self.survey_name.lower())]`
(ncei_scrape.py line 159), with out-of-range indexing defaulting to the empty
string (the two lists are built pairwise, see `survey_names_in_region`). -/
def region_ship_for (region_ship_name region_survey_name : List String)
    (survey_lower : String) : String :=
  region_ship_name.getD (region_survey_name.indexOf survey_lower) ""

/-- Embeds the boolean decision of `NceiScrape._allow_shipname_surveyname`
(ncei_scrape.py lines 126-168) given the already-split URL (`urldata`): at a
9-segment URL, skip when the region survey list is empty, when the lowercased
survey segment is absent from it, when the paired region ship name (spaces
replaced by underscores) differs from the ship segment, or when the ledger
already has a completed grid; otherwise (and at any non-9-segment URL)
keep searching.  The state mutation done by the same method is modelled
separately in `visit_parts`. -/
def allow_shipname_surveyname (region_ship_name region_survey_name : List String)
    (db : List SurveyRow) (urldata : List String) : Bool :=
  if urldata.length = 9 then
    let ship := urldata.getD 6 ""
    let survey := urldata.getD 7 ""
    if region_survey_name.isEmpty then false
    else if !region_survey_name.isEmpty &&
        !(region_survey_name.contains (py_lower survey)) then false
    else if replace_space_underscore
        (region_ship_for region_ship_name region_survey_name (py_lower survey)) != ship then
      false
    else if check_for_grid db ship survey then false
    else true
  else true

/-- Modelled from the spec wording of the skip decision (spec §4.5): four
conditions evaluated in order, the first failing condition short-circuits to
skip; returns `true` when the subtree is skipped.  Condition (1) mentions an
active region restriction, which the code itself never consults at this
point. -/
def spec_skip_decision (region_active : Bool) (region_ship_name region_survey_name : List String)
    (db : List SurveyRow) (urldata : List String) : Bool :=
  let ship := urldata.getD 6 ""
  let survey := urldata.getD 7 ""
  if region_active && region_survey_name.isEmpty then true
  else if !(region_survey_name.contains (py_lower survey)) then true
  else if replace_space_underscore
      (region_ship_for region_ship_name region_survey_name (py_lower survey)) != ship then true
  else if check_for_grid db ship survey then true
  else false

/-- C2: at every 9-segment (ship, survey) boundary URL, the code's skip
decision agrees with the spec's four ordered short-circuiting conditions,
whether or not a region restriction is considered active: the subtree is
searched exactly when the spec decision does not skip. -/
theorem allow_decision_matches_spec (region_active : Bool)
    (region_ship_name region_survey_name : List String)
    (db : List SurveyRow) (urldata : List String) (hlen : urldata.length = 9) :
    allow_shipname_surveyname region_ship_name region_survey_name db urldata =
      !(spec_skip_decision region_active region_ship_name region_survey_name db urldata) := by
  rw [allow_shipname_surveyname, spec_skip_decision, if_pos hlen]
  show (if region_survey_name.isEmpty then false
    else if !region_survey_name.isEmpty &&
        !(region_survey_name.contains (py_lower (urldata.getD 7 ""))) then false
    else if replace_space_underscore
        (region_ship_for region_ship_name region_survey_name
          (py_lower (urldata.getD 7 ""))) != urldata.getD 6 "" then false
    else if check_for_grid db (urldata.getD 6 "") (urldata.getD 7 "") then false
    else true) = _
  cases hempty : region_survey_name.isEmpty with
  | true =>
    have hnil : region_survey_name = [] := List.isEmpty_iff.mp hempty
    subst hnil
    cases region_active <;> simp
  | false =>
    cases hmem : region_survey_name.contains (py_lower (urldata.getD 7 "")) with
    | false => simp
    | true =>
      cases hship : replace_space_underscore
          (region_ship_for region_ship_name region_survey_name
            (py_lower (urldata.getD 7 ""))) != urldata.getD 6 "" with
      | true => simp
      | false =>
        cases hgrid : check_for_grid db (urldata.getD 6 "") (urldata.getD 7 "") <;> simp

/-- Witness for C2 at a concrete boundary URL. -/
theorem allow_decision_matches_spec_witness :
    allow_shipname_surveyname ["alpha"] ["s1"] []
        ["https:", "", "data.ngdc.noaa.gov", "platforms", "ocean", "ships", "alpha", "s1", ""] =
      !(spec_skip_decision true ["alpha"] ["s1"] []
        ["https:", "", "data.ngdc.noaa.gov", "platforms", "ocean", "ships", "alpha", "s1", ""]) :=
  allow_decision_matches_spec true ["alpha"] ["s1"] []
    ["https:", "", "data.ngdc.noaa.gov", "platforms", "ocean", "ships", "alpha", "s1", ""]
    (by decide)

/-! ### Boundary bookkeeping along a crawl (ncei_scrape.py `_ncei_scrape`) -/

/-- The state mutation `NceiScrape._allow_shipname_surveyname` performs at a
9-segment boundary URL (ncei_scrape.py lines 143-150): first commit the
previous survey with `_add_survey`, then load the cursor with this URL's ship
(segment 6), survey (segment 7) and URL, clearing `raw_data_path`.  At any
other URL the state is untouched.  `urldata` is the already-split URL
(`ncei_url.split('/')`). -/
def visit_parts (st : ScrapeState) (urldata : List String) : ScrapeState :=
  if urldata.length = 9 then
    let st1 := add_survey st
    { st1 with
      ship_name := urldata.getD 6 ""
      survey_name := urldata.getD 7 ""
      survey_url := String.intercalate "/" urldata
      raw_data_path := "" }
  else st

/-- The ledger-relevant trace of one crawl.  `_ncei_scrape` (ncei_scrape.py
lines 252-290) runs once per visited directory page and calls
`_allow_shipname_surveyname` with the page URL as its first step; `visits` is
the sequence of those page URLs, split into segments.  `ncei_scrape` (lines
243-250) ends with `close()`, which shuts the logger and backend down without
any further commit (lines 390-399), so the final state is exactly this fold. -/
def run_visits (st : ScrapeState) (visits : List (List String)) : ScrapeState :=
  visits.foldl visit_parts st

/-- The state `NceiScrape` starts a crawl with: every `BaseBackend` attribute
at its `__init__` default, an empty ledger table. -/
def initial_state : ScrapeState := {}

/-- The split form of a (ship, survey) boundary URL
`https://data.ngdc.noaa.gov/platforms/ocean/ships/{ship}/{survey}/`: exactly
9 segments, ship at index 6 and survey at index 7. -/
def boundary_parts (ship survey : String) : List String :=
  ["https:", "", "data.ngdc.noaa.gov", "platforms", "ocean", "ships", ship, survey, ""]

/-- The row `_add_survey` writes for a survey boundary that was visited but
accumulated no downloads: both names (already lowercase), zero counters,
empty paths. -/
def committed_row (ship survey : String) : SurveyRow :=
  { ship_name := ship, survey := survey, downloaded_success := 0, downloaded_error := 0,
    ignored := 0, raw_data_path := "", processed_data_path := "", grid_path := "" }

/-- A crawl state whose per-survey accumulators sit at their defaults.  This
holds at crawl start (`BaseBackend.__init__`) and at every boundary visit,
because `_add_survey` resets all of them and the boundary load clears
`raw_data_path`; the visits model tracks no downloads in between. -/
def clean_counters (st : ScrapeState) : Prop :=
  st.downloaded_success_count = 0 ∧ st.downloaded_error_count = 0 ∧ st.ignored_count = 0 ∧
  st.raw_data_path = "" ∧ st.processed_data_path = "" ∧ st.grid_path = ""

/-- Modelled from the amended claim's words: the reference ledger of a
lagged-commit crawl.  Starting from table `db`, with `pending` the (ship,
survey) pair whose subtree the cursor currently sits in, each boundary visit
first commits the pending pair — exactly one row creation iff both names are
non-empty and the lowercased pair is not already present, zero row creations
otherwise — and only then makes the new pair pending; when the visits end,
the still-pending final pair is NOT committed (`close()` does not flush
it). -/
def lag_ledger (db : List SurveyRow) (pending : String × String) :
    List (String × String) → List SurveyRow
  | [] => db
  | next :: rest =>
    lag_ledger
      (db ++
        (if pending.1 != "" && pending.2 != "" &&
            !(check_for_survey db pending.1 pending.2)
         then [committed_row (py_lower pending.1) (py_lower pending.2)] else []))
      next rest

theorem visit_boundary_step (st : ScrapeState) (q : String × String)
    (hclean : clean_counters st) :
    clean_counters (visit_parts st (boundary_parts q.1 q.2)) ∧
    (visit_parts st (boundary_parts q.1 q.2)).ship_name = q.1 ∧
    (visit_parts st (boundary_parts q.1 q.2)).survey_name = q.2 ∧
    (visit_parts st (boundary_parts q.1 q.2)).db =
      st.db ++
        (if st.ship_name != "" && st.survey_name != "" &&
            !(check_for_survey st.db st.ship_name st.survey_name)
         then [committed_row (py_lower st.ship_name) (py_lower st.survey_name)] else []) := by
  obtain ⟨h1, h2, h3, h4, h5, h6⟩ := hclean
  have hlen : (boundary_parts q.1 q.2).length = 9 := rfl
  have hrow : inserted_row st
      = committed_row (py_lower st.ship_name) (py_lower st.survey_name) := by
    unfold inserted_row committed_row
    rw [h1, h2, h3, h4, h5, h6]
  refine ⟨?_, ?_, ?_, ?_⟩
  · unfold visit_parts
    rw [if_pos hlen]
    exact ⟨rfl, rfl, rfl, rfl, rfl, rfl⟩
  · unfold visit_parts
    rw [if_pos hlen]
    rfl
  · unfold visit_parts
    rw [if_pos hlen]
    rfl
  · show (visit_parts st (boundary_parts q.1 q.2)).db = _
    unfold visit_parts
    rw [if_pos hlen]
    show (add_survey st).db = _
    rw [add_survey_db_eq st, hrow]

/-- C3 counterexample: a crawl that visits — and is allowed to search — a
single (ship, survey) boundary ends with an empty ledger: the visited subtree
produced zero Ledger row creations, because commits lag one boundary behind
and `close()` never flushes the pending survey. -/
theorem last_visited_survey_not_committed :
    allow_shipname_surveyname ["alpha"] ["s1"] [] (boundary_parts "alpha" "s1") = true ∧
    (boundary_parts "alpha" "s1").length = 9 ∧
    (run_visits initial_state [boundary_parts "alpha" "s1"]).db = [] := by decide

/-- C3 amended: starting from any ledger (resumed crawls included) and any
sequence of boundary visits (repeated or case-colliding pairs included, the
per-survey accumulators at their defaults as they are at crawl start and at
every boundary), the crawler's final ledger equals the lagged-commit
reference: each boundary visit commits only the *previous* pending survey —
exactly one row creation iff both names are non-empty and the lowercased pair
is not already present, zero otherwise — so every visited subtree produces at
most one row creation, it is issued when the next boundary is reached, and
the last visited subtree always produces zero, because `close()` ends the
crawl without flushing the pending survey. -/
theorem ledger_commits_lag_one (pairs : List (String × String)) :
    ∀ st : ScrapeState, clean_counters st →
      (run_visits st (pairs.map fun p => boundary_parts p.1 p.2)).db
        = lag_ledger st.db (st.ship_name, st.survey_name) pairs := by
  induction pairs with
  | nil =>
    intro st _
    rfl
  | cons q rest ih =>
    intro st hclean
    obtain ⟨hstep_clean, hship, hsurvey, hdb⟩ := visit_boundary_step st q hclean
    have hfold : run_visits st ((q :: rest).map fun p => boundary_parts p.1 p.2)
        = run_visits (visit_parts st (boundary_parts q.1 q.2))
            (rest.map fun p => boundary_parts p.1 p.2) := rfl
    rw [hfold, ih _ hstep_clean, hship, hsurvey, hdb]
    rfl

/-- Witness for C3 (amended) at a concrete two-boundary crawl over an empty
ledger: only the first survey is committed (when the second boundary is
reached); the second, final survey is not. -/
theorem ledger_commits_lag_one_witness :
    (run_visits initial_state
        ([("alpha", "s1"), ("bravo", "s2")].map fun p => boundary_parts p.1 p.2)).db
      = [committed_row "alpha" "s1"] := by
  have h := ledger_commits_lag_one [("alpha", "s1"), ("bravo", "s2")] initial_state
    ⟨rfl, rfl, rfl, rfl, rfl, rfl⟩
  rw [h]
  decide

/-! ### Connection layer retry loop (ncei_scrape.py / ncei_query.py `connect_to_server`) -/

/-- Status of the `connect_to_server` retry loop (ncei_scrape.py lines
292-316; ncei_query.py lines 143-167 is character-for-character the same
loop).  `running retries current_tries warnings` is the loop about to test
`current_tries < retries`, having logged `warnings` warning events (one per
failed attempt); `returned resp warnings errors` is the function having
returned `resp` (`none` models the final `return None`, which also logs
`errors = 1` error event). -/
inductive ConnOutcome where
  | running (retries current_tries warnings : Nat)
  | returned (resp : Option Nat) (warnings errors : Nat)
deriving DecidableEq, Repr

/-- One iteration of the retry loop.  `statuses i` is the HTTP status code of
the i-th GET issued by the loop; since every attempt before the current one
failed, the attempt index equals the warning count.  Mirrors the source
exactly: a 2xx status returns the response; otherwise the body executes
`retries += 1` — the loop bound, not `current_tries` — and logs one warning;
when the guard fails the function logs one error and returns `None`. -/
def connect_step (statuses : Nat → Nat) : ConnOutcome → ConnOutcome
  | .running retries current_tries warnings =>
    if current_tries < retries then
      let code := statuses warnings
      if 200 ≤ code ∧ code < 300 then .returned (some code) warnings 0
      else .running (retries + 1) current_tries (warnings + 1)
    else .returned none warnings 1
  | st => st

/-- The loop state after `k` iterations, starting from
`retries = retries_config` (`scrape_variables.server_reconnect_retries`) and
`current_tries = 0` (ncei_scrape.py lines 304-305). -/
def connect_to_server (statuses : Nat → Nat) (retries_config k : Nat) : ConnOutcome :=
  (connect_step statuses)^[k] (.running retries_config 0 0)

/-- The scenario of C1 on the code: with the retry maximum configured to 3 and
every GET answering status 500, after any number `k` of loop iterations the
fetch is still running, the bound has been inflated to `3 + k`,
`current_tries` is still 0 and `k` warnings have been logged — the loop never
performs exactly 3 attempts, never logs the exhaustion error and never
returns failure, because the body increments `retries` instead of
`current_tries`. -/
theorem connect_to_server_never_returns (k : Nat) :
    connect_to_server (fun _ => 500) 3 k = .running (3 + k) 0 k := by
  induction k with
  | zero => rfl
  | succ n ih =>
    rw [connect_to_server, Function.iterate_succ_apply']
    rw [connect_to_server] at ih
    rw [ih]
    show (if 0 < 3 + n then
        if 200 ≤ 500 ∧ 500 < 300 then ConnOutcome.returned (some 500) n 0
        else ConnOutcome.running (3 + n + 1) 0 (n + 1)
      else ConnOutcome.returned none n 1) = ConnOutcome.running (3 + (n + 1)) 0 (n + 1)
    rw [if_pos (by omega), if_neg (by omega), Nat.add_assoc]

/-! ### Chunked identifier paging (ncei_query.py `NceiQuery.query`) -/

/-- Python `int(np.ceil(a / b))` for positive integers, as computed for
`runs` in `NceiQuery.query` (ncei_query.py line 327). -/
def ceil_div (a b : Nat) : Nat := (a + b - 1) / b

/-- The chunking loop of `NceiQuery.query` (ncei_query.py lines 328-341),
recursing on the remaining `runs` count: each iteration slices
`object_ids[start_index:end_index]` as the ids the follow-up query is
constrained to, then advances `start_index = end_index` and
`end_index = min(end_index + 500, total_length)`. -/
def chunk_loop (object_ids : List Nat) : Nat → Nat → Nat → List (List Nat)
  | 0, _, _ => []
  | runs + 1, start_index, end_index =>
    (object_ids.drop start_index).take (end_index - start_index) ::
      chunk_loop object_ids runs end_index (min (end_index + 500) object_ids.length)

/-- The chunks of follow-up queries `NceiQuery.query` issues for one envelope
whose identifiers-only query returned `object_ids` (ncei_query.py lines
322-341): no follow-up queries when the id list is empty (the `else` branch
logs an error instead), otherwise `runs = ceil(total_length / min(500,
total_length))` chunks starting from `start_index = 0`,
`end_index = min(500, total_length)`. -/
def query_chunks (object_ids : List Nat) : List (List Nat) :=
  if object_ids.isEmpty then []
  else
    chunk_loop object_ids
      (ceil_div object_ids.length (min 500 object_ids.length))
      0 (min 500 object_ids.length)

theorem chunk_loop_flatten (object_ids : List Nat) (runs : Nat) :
    ∀ s, (chunk_loop object_ids runs s (min (s + 500) object_ids.length)).flatten
      = (object_ids.drop s).take (500 * runs) := by
  induction runs with
  | zero =>
    intro s
    simp [chunk_loop]
  | succ n ih =>
    intro s
    rw [chunk_loop, List.flatten_cons]
    rcases le_or_lt (s + 500) object_ids.length with h | h
    · rw [min_eq_left h]
      rw [ih (s + 500)]
      rw [show s + 500 - s = 500 by omega]
      rw [show List.drop (s + 500) object_ids = List.drop 500 (List.drop s object_ids)
        from (List.drop_drop 500 s object_ids).symm]
      rw [show 500 * (n + 1) = 500 + 500 * n by ring, List.take_add]
    · rw [min_eq_right (le_of_lt h)]
      have hdroplen : (object_ids.drop s).length = object_ids.length - s :=
        List.length_drop s object_ids
      rw [show object_ids.length - s = (object_ids.drop s).length from hdroplen.symm,
        List.take_length]
      have htail : (chunk_loop object_ids n object_ids.length
          (min (object_ids.length + 500) object_ids.length)).flatten
          = (object_ids.drop object_ids.length).take (500 * n) := ih object_ids.length
      rw [htail, List.drop_length, List.take_nil, List.append_nil]
      have hlen : (object_ids.drop s).length ≤ 500 * (n + 1) := by
        rw [hdroplen]
        have : 500 * (n + 1) = 500 * n + 500 := by ring
        omega
      rw [List.take_of_length_le hlen]

theorem chunk_loop_bounded (object_ids : List Nat) (runs : Nat) :
    ∀ s, ∀ chunk ∈ chunk_loop object_ids runs s (min (s + 500) object_ids.length),
      chunk.length ≤ 500 := by
  induction runs with
  | zero =>
    intro s chunk hmem
    simp [chunk_loop] at hmem
  | succ n ih =>
    intro s chunk hmem
    rw [chunk_loop] at hmem
    rcases List.mem_cons.mp hmem with hhead | htail
    · subst hhead
      have h1 : ((object_ids.drop s).take (min (s + 500) object_ids.length - s)).length
          ≤ min (s + 500) object_ids.length - s := List.length_take_le _ _
      have h2 : min (s + 500) object_ids.length ≤ s + 500 := min_le_left _ _
      omega
    · exact ih (min (s + 500) object_ids.length) chunk htail

/-- C4: the chunked identifier paging of the query operation constrains no
follow-up query to more than 500 identifiers, and the chunks concatenate back
to exactly the identifiers-only result — so if each follow-up query returns
one feature per requested identifier, the accumulated feature count equals
the identifiers-only count.  This holds for every id-list length, in
particular the boundary counts 0, 1, 500, 501 and 1000. -/
theorem query_chunks_paging (object_ids : List Nat) :
    (∀ chunk ∈ query_chunks object_ids, chunk.length ≤ 500) ∧
    (query_chunks object_ids).flatten = object_ids ∧
    ((query_chunks object_ids).map List.length).sum = object_ids.length := by
  cases hempty : object_ids.isEmpty with
  | true =>
    have : object_ids = [] := List.isEmpty_iff.mp hempty
    subst this
    refine ⟨?_, rfl, rfl⟩
    intro chunk hmem
    simp [query_chunks] at hmem
  | false =>
    have hne : object_ids ≠ [] := by
      intro hcontr
      rw [hcontr] at hempty
      simp at hempty
    have hpos : 0 < object_ids.length := List.length_pos.mpr hne
    have hshape : min 500 object_ids.length = min (0 + 500) object_ids.length := by
      norm_num
    have hruns : object_ids.length
        ≤ 500 * ceil_div object_ids.length (min 500 object_ids.length) := by
      rcases le_or_lt object_ids.length 500 with h5 | h5
      · rw [min_eq_right h5]
        have hone : 1 ≤ ceil_div object_ids.length object_ids.length := by
          rw [ceil_div]
          rw [Nat.le_div_iff_mul_le hpos]
          omega
        calc object_ids.length ≤ 500 := h5
          _ = 500 * 1 := by ring
          _ ≤ 500 * ceil_div object_ids.length object_ids.length :=
              Nat.mul_le_mul_left 500 hone
      · rw [min_eq_left (by omega)]
        rw [ceil_div]
        omega
    have hflatten : (query_chunks object_ids).flatten = object_ids := by
      rw [query_chunks, if_neg (by rw [hempty]; exact Bool.false_ne_true), hshape,
        chunk_loop_flatten, List.drop_zero]
      exact List.take_of_length_le hruns
    refine ⟨?_, hflatten, ?_⟩
    · intro chunk hmem
      rw [query_chunks, if_neg (by rw [hempty]; exact Bool.false_ne_true), hshape] at hmem
      exact chunk_loop_bounded object_ids _ 0 chunk hmem
    · rw [← List.length_flatten, hflatten]

/-! ### Region survey-name derivation (ncei_scrape.py `survey_names_in_region`) -/

/-- One feature of the accumulated query result, restricted to the two
attributes `survey_names_in_region` reads (ncei_scrape.py lines 427-428). -/
structure Feature where
  PLATFORM : String
  SURVEY_ID : String
deriving DecidableEq, Repr

/-- The accumulation loop of `survey_names_in_region` (ncei_scrape.py lines
429-432), mirroring the source's membership test exactly: the original-case
survey name `surv` is tested against the accumulated (lowercased) survey
list, and on a miss `surv.lower()` and the paired `ship_name[cnt].lower()`
are appended. -/
def unique_names_loop : List (String × String) → List String → List String →
    List String × List String
  | [], unique_ship_name, unique_survey_name => (unique_ship_name, unique_survey_name)
  | (ship, surv) :: rest, unique_ship_name, unique_survey_name =>
    if unique_survey_name.contains surv then
      unique_names_loop rest unique_ship_name unique_survey_name
    else
      unique_names_loop rest (unique_ship_name ++ [py_lower ship])
        (unique_survey_name ++ [py_lower surv])

/-- Embeds `survey_names_in_region` (ncei_scrape.py lines 402-433) applied to
a non-empty query result: the PLATFORM and SURVEY_ID attributes are read off
the features and folded through the uniqueness loop starting from empty
accumulators; the ship list is returned first, the survey list second. -/
def survey_names_in_region (features : List Feature) : List String × List String :=
  unique_names_loop (features.map fun f => (f.PLATFORM, f.SURVEY_ID)) [] []

/-- C8 fails on the code: two features carrying the same upper-case survey
identifier "S1" produce the survey list ["s1", "s1"] — the membership test
compares the original-case name against the lowercased accumulator, so the
duplicate goes undetected and the returned survey-name list is not
duplicate-free. -/
theorem survey_names_duplicate_on_uppercase :
    survey_names_in_region [⟨"ShipA", "S1"⟩, ⟨"ShipB", "S1"⟩]
      = (["shipa", "shipb"], ["s1", "s1"]) ∧
    ¬ (survey_names_in_region [⟨"ShipA", "S1"⟩, ⟨"ShipB", "S1"⟩]).2.Nodup := by
  decide

/-! ### Query field validation (ncei_query.py `_validate_query_parameters` / `query`) -/

/-- The valid projection fields of `MultibeamQuery` (ncei_query.py lines
361-363). -/
def multibeam_fields : List String :=
  ["SURVEY_ID", "PLATFORM", "SURVEY_YEAR", "SOURCE", "NGDC_ID", "CHIEF_SCIENTIST",
   "INSTRUMENT", "FILE_COUNT", "TRACK_LENGTH", "TOTAL_TIME", "BATHY_BEAMS", "AMP_BEAMS",
   "SIDESCANS", "ENTERED_DATE", "DOWNLOAD_URL", "SHAPE", "START_TIME", "END_TIME", "OBJECTID"]

/-- The invalid-field comprehension of `NceiQuery._validate_query_parameters`
(ncei_query.py line 237). -/
def invalid_fields_of (fields include_fields : List String) : List String :=
  include_fields.filter fun f => !(fields.contains f)

/-- Embeds the include_fields handling of `_validate_query_parameters`
(ncei_query.py lines 236-243): an empty tuple skips validation and yields the
empty projection string; otherwise any field outside `self.fields` logs an
error and raises ValueError, and an all-valid tuple is joined with the
URL-encoded comma. -/
def validate_include_fields (fields include_fields : List String) : Except String String :=
  if include_fields.isEmpty then .ok ""
  else if (invalid_fields_of fields include_fields).isEmpty then
    .ok (String.intercalate "%2C" include_fields)
  else .error "Invalid field(s) provided, must be one of the valid field list"

/-- A network request issued by `NceiQuery.query`: the identifiers-only query
for an envelope (ncei_query.py line 320 via `_query_object_ids`), or a
follow-up query constrained to one chunk of object ids (lines 330-333). -/
inductive Request where
  | ids_only (envelope_index : Nat)
  | by_object_ids (envelope_index : Nat) (object_ids : List Nat)
deriving DecidableEq, Repr

/-- The observable outcome of one `query` call: the ValueError raised (if
any), the error-level log messages of the validation step, and all requests
issued, in order. -/
structure QueryRun where
  raised : Option String
  error_logs : List String
  requests : List Request
deriving DecidableEq, Repr

/-- The requests `query` issues after successful validation (ncei_query.py
lines 317-341): for each envelope in order, one identifiers-only query
followed by one follow-up query per 500-id chunk of that envelope's id
response.  `envelope_ids` lists, per envelope, the object ids its
identifiers-only query returns. -/
def envelope_requests (envelope_ids : List (List Nat)) : List Request :=
  envelope_ids.enum.flatMap fun p =>
    Request.ids_only p.1 :: (query_chunks p.2).map (Request.by_object_ids p.1)

/-- Embeds the control flow of `NceiQuery.query` (ncei_query.py lines
314-345) around validation: `_validate_query_parameters` runs as the first
statement, so a ValueError is raised before any network request; otherwise
the paging loop issues the envelope requests. -/
def query (fields include_fields : List String) (envelope_ids : List (List Nat)) : QueryRun :=
  match validate_include_fields fields include_fields with
  | .error e => { raised := some e, error_logs := [e], requests := [] }
  | .ok _ => { raised := none, error_logs := [], requests := envelope_requests envelope_ids }

theorem invalid_fields_empty_iff (fields include_fields : List String) :
    (invalid_fields_of fields include_fields).isEmpty = true ↔
      ∀ f ∈ include_fields, f ∈ fields := by
  rw [invalid_fields_of, List.isEmpty_iff, List.filter_eq_nil_iff]
  simp

/-- C9: the query operation raises a ValueError exactly when some supplied
projection field is not in the class's valid field list; a raising call has
logged one error and issued no network request, and an all-valid call
proceeds to the paging requests without raising. -/
theorem query_validates_fields_first (fields include_fields : List String)
    (envelope_ids : List (List Nat)) :
    ((query fields include_fields envelope_ids).raised.isSome
      ↔ ∃ f ∈ include_fields, f ∉ fields) ∧
    (query fields include_fields envelope_ids).requests
      = (if (query fields include_fields envelope_ids).raised.isSome then []
         else envelope_requests envelope_ids) ∧
    (query fields include_fields envelope_ids).error_logs.length
      = (if (query fields include_fields envelope_ids).raised.isSome then 1 else 0) := by
  rw [query, validate_include_fields]
  cases hempty : include_fields.isEmpty with
  | true =>
    have : include_fields = [] := List.isEmpty_iff.mp hempty
    subst this
    simp
  | false =>
    cases hinv : (invalid_fields_of fields include_fields).isEmpty with
    | true =>
      have hall := (invalid_fields_empty_iff fields include_fields).mp hinv
      simp only [if_true, Bool.false_eq_true, if_false, Option.isSome_none, Option.isSome_some]
      refine ⟨?_, by simp, by simp⟩
      simp only [Option.isSome_none, Bool.false_eq_true, false_iff]
      rintro ⟨f, hf, hnot⟩
      exact hnot (hall f hf)
    | false =>
      have hnall : ¬ ∀ f ∈ include_fields, f ∈ fields := by
        intro hcontr
        rw [(invalid_fields_empty_iff fields include_fields).mpr hcontr] at hinv
        exact Bool.true_eq_false.mp hinv
      simp only [Bool.false_eq_true, if_false]
      refine ⟨?_, by simp, by simp⟩
      simp only [Option.isSome_some, true_iff]
      rcases not_forall.mp hnall with ⟨f, hf⟩
      rcases Classical.not_imp.mp hf with ⟨hmem, hnot⟩
      exact ⟨f, hmem, hnot⟩

/-! ### External processing handoff (kluster_process.py `run_kluster`,
ncei_scrape.py `kluster_process`) -/

/-- The outcome of a call into the external kluster collaborator: either a
normal return value or a raised exception (carrying the message the `except`
block formats into its log line). -/
inductive KCall (α : Type) where
  | ok (val : α)
  | raises (exc : String)
deriving DecidableEq, Repr

/-- The observable effects of one `run_kluster` call (kluster_process.py
lines 32-97): the returned (processed, gridded) flags, which raw multibeam
files were deleted by `_delete_raw_multibeam`, whether
`_delete_processed_multibeam` ran, and the log calls. -/
structure RunKlusterResult where
  processed : Bool
  gridded : Bool
  deleted_raw : List String
  deleted_processed : Bool
  logs : List LogEvent
deriving Repr

/-- The converted-data list `run_kluster` carries into its second phase:
the collaborator's return value, or `[]` when `run_kluster_intel_process`
raised (kluster_process.py line 69). -/
def converted_of (intel_result : KCall (List String)) : List String :=
  match intel_result with
  | .ok converted => converted
  | .raises _ => []

/-- The `processed` flag after the first try/except of `run_kluster`
(kluster_process.py lines 62-70): true exactly when the conversion call
returned normally. -/
def intel_processed : KCall (List String) → Bool
  | .ok _ => true
  | .raises _ => false

/-- The log call of the first except block of `run_kluster`
(kluster_process.py lines 66-68). -/
def intel_logs : KCall (List String) → List LogEvent
  | .ok _ => []
  | .raises e => [⟨LogLevel.error, "ERROR: run_kluster_intel_process: " ++ e⟩]

/-- The conversion-count log of `run_kluster` (kluster_process.py lines
71-77): INFO when any converted instance came back, ERROR otherwise. -/
def conversion_count_logs (converted_data_list : List String) : List LogEvent :=
  if converted_data_list.length > 0 then
    [⟨LogLevel.info, "run_kluster_intel_process - processed multibeam files into kluster converted instances"⟩]
  else
    [⟨LogLevel.error, "run_kluster_intel_process - error processing multibeam files, did not get any processed kluster data in return"⟩]

/-- The final surface/export log of `run_kluster` (kluster_process.py lines
90-94) in the no-exception case, by export path presence. -/
def export_log : Option String → LogEvent
  | some _ => ⟨LogLevel.info, "run_kluster - generated new surface, exported grid"⟩
  | none => ⟨LogLevel.error, "run_kluster - generated new surface, but the export failed"⟩

/-- The second try/except of `run_kluster` (kluster_process.py lines 78-96):
on a normal `build_kluster_surface` return the processed and raw multibeam
files are deleted and `gridded` is true (even when the export path came back
empty); on an exception nothing is deleted, `gridded` is false and two error
lines are logged (the except block at line 87 and the summary at line 96). -/
def surface_phase (multibeam_files : List String) (processed : Bool)
    (logs12 : List LogEvent) : KCall (Option String) → RunKlusterResult
  | .ok export_path =>
    { processed := processed
      gridded := true
      deleted_raw := multibeam_files
      deleted_processed := true
      logs := logs12 ++ [export_log export_path] }
  | .raises e =>
    { processed := processed
      gridded := false
      deleted_raw := []
      deleted_processed := false
      logs := logs12 ++
        [⟨LogLevel.error, "ERROR: build_kluster_surface " ++ e⟩,
         ⟨LogLevel.error, "run_kluster - unable to generate new surface, error in the processing."⟩] }

/-- Embeds `run_kluster` (kluster_process.py lines 32-97).  `intel_result` is
the outcome of the `run_kluster_intel_process` call (the conversion phase);
`surface_result` is the behaviour of the `build_kluster_surface` call (the
gridding/export phase) as a function of the converted list it is invoked on
(its successful value is the optional export path, `none` when no export file
was found).  Both phases sit in try/except blocks, so the function always
returns the two flags instead of propagating. -/
def run_kluster (multibeam_files : List String) (intel_result : KCall (List String))
    (surface_result : List String → KCall (Option String)) : RunKlusterResult :=
  surface_phase multibeam_files (intel_processed intel_result)
    (intel_logs intel_result ++ conversion_count_logs (converted_of intel_result))
    (surface_result (converted_of intel_result))

/-- Embeds `NceiScrape.kluster_process` (ncei_scrape.py lines 318-344): when
raw data was transferred, kluster is available and the processed path is set,
hand the raw file list off to `run_kluster` and downgrade
`processed_data_path` and `grid_path` to empty on the respective failure
flags; the other branches only log.  `raw_files` is the (fallible) listing of
`raw_data_path` filtered to processing extensions, empty when the listing
raised. -/
def kluster_process (st : ScrapeState) (kluster_enabled : Bool) (raw_files : List String)
    (intel_result : KCall (List String))
    (surface_result : List String → KCall (Option String)) : ScrapeState :=
  if st.raw_data_path != "" then
    if kluster_enabled then
      if st.processed_data_path != "" then
        let res := run_kluster raw_files intel_result surface_result
        { st with
          processed_data_path := if res.processed then st.processed_data_path else ""
          grid_path := if res.gridded then st.grid_path else ""
          logs := st.logs ++ res.logs }
      else
        { st with logs := st.logs ++
            [⟨LogLevel.error, "kluster_process: Unable to find the processed data path, which is set during file transfer, were files not transferred?"⟩] }
    else
      { st with logs := st.logs ++
          [⟨LogLevel.warning, "kluster_process: Kluster not found, skipping the processing for this survey"⟩] }
  else st

/-- C7 counterexample: the claim fails as stated for a reported (non-raising)
failure.  When `build_kluster_surface` returns normally but produced no
export file (`export_path = None`, which `run_kluster` itself logs as the
error "generated new surface, but the export failed"), nothing is
downgraded: `gridded` stays true, the raw multibeam files are deleted
(deletion runs inside the try, before the export check), and the
orchestrator leaves the survey's `grid_path` set — contradicting every
conclusion of the claim at an instance of its "reports failure"
hypothesis. -/
theorem kluster_export_failure_not_downgraded :
    (run_kluster ["a.all"] (KCall.ok ["day1"]) (fun _ => KCall.ok none)).gridded = true ∧
    (run_kluster ["a.all"] (KCall.ok ["day1"]) (fun _ => KCall.ok none)).deleted_raw
      = ["a.all"] ∧
    (⟨LogLevel.error, "run_kluster - generated new surface, but the export failed"⟩ : LogEvent)
      ∈ (run_kluster ["a.all"] (KCall.ok ["day1"]) (fun _ => KCall.ok none)).logs ∧
    (kluster_process
        { raw_data_path := "raw", processed_data_path := "raw_processed",
          grid_path := "raw_processed/export.bag" : ScrapeState }
        true ["a.all"] (KCall.ok ["day1"]) (fun _ => KCall.ok none)).grid_path
      = "raw_processed/export.bag" := by
  decide

/-- C7 amended: when the external processing handoff raises — the collaborator
raises in the conversion phase or in the gridding/export phase on the
converted list it receives (gridding an empty converted list is assumed to
raise) — the exception is caught inside `run_kluster` and logged as an error,
the returned grid flag is false so the orchestrator downgrades the survey's
`grid_path` to empty, no raw multibeam file is deleted, and the crawl state
(in particular the ledger) is otherwise intact rather than the run aborting.
(When the gridding phase instead returns normally without an export file, the
code logs an error but keeps the grid flag, deletes the raw files and leaves
`grid_path` set — see the counterexample above.) -/
theorem kluster_process_failure_downgrades (st : ScrapeState) (raw_files : List String)
    (intel_result : KCall (List String))
    (surface_result : List String → KCall (Option String))
    (h_raw : st.raw_data_path ≠ "") (h_proc : st.processed_data_path ≠ "")
    (h_empty_fails : ∃ e, surface_result [] = .raises e)
    (h_fail : (∃ e, intel_result = .raises e) ∨
      (∃ e, surface_result (converted_of intel_result) = .raises e)) :
    (run_kluster raw_files intel_result surface_result).gridded = false ∧
    (run_kluster raw_files intel_result surface_result).deleted_raw = [] ∧
    (kluster_process st true raw_files intel_result surface_result).grid_path = "" ∧
    (kluster_process st true raw_files intel_result surface_result).db = st.db ∧
    (∃ l ∈ (kluster_process st true raw_files intel_result surface_result).logs,
      l.level = LogLevel.error) := by
  have h_surf : ∃ e, surface_result (converted_of intel_result) = .raises e := by
    rcases h_fail with ⟨e, hintel⟩ | hs
    · rw [hintel]
      exact h_empty_fails
    · exact hs
  obtain ⟨e, hse⟩ := h_surf
  have hrun_grid : (run_kluster raw_files intel_result surface_result).gridded = false := by
    rw [run_kluster, hse]
    rfl
  have hrun_raw : (run_kluster raw_files intel_result surface_result).deleted_raw = [] := by
    rw [run_kluster, hse]
    rfl
  have hrun_logs : (run_kluster raw_files intel_result surface_result).logs =
      (intel_logs intel_result ++ conversion_count_logs (converted_of intel_result)) ++
        [⟨LogLevel.error, "ERROR: build_kluster_surface " ++ e⟩,
         ⟨LogLevel.error, "run_kluster - unable to generate new surface, error in the processing."⟩] := by
    rw [run_kluster, hse]
    rfl
  have hproc_b : (st.processed_data_path != "") = true := by simp [h_proc]
  have hraw_b : (st.raw_data_path != "") = true := by simp [h_raw]
  have hkp : kluster_process st true raw_files intel_result surface_result =
      { st with
        processed_data_path :=
          if (run_kluster raw_files intel_result surface_result).processed
          then st.processed_data_path else ""
        grid_path :=
          if (run_kluster raw_files intel_result surface_result).gridded
          then st.grid_path else ""
        logs := st.logs ++ (run_kluster raw_files intel_result surface_result).logs } := by
    rw [kluster_process, if_pos hraw_b, if_pos hproc_b]
    rfl
  refine ⟨hrun_grid, hrun_raw, ?_, ?_, ?_⟩
  · rw [hkp]
    show (if (run_kluster raw_files intel_result surface_result).gridded = true
        then st.grid_path else "") = ""
    rw [hrun_grid]
    simp
  · rw [hkp]
  · refine ⟨⟨LogLevel.error,
      "run_kluster - unable to generate new surface, error in the processing."⟩, ?_, rfl⟩
    rw [hkp]
    show _ ∈ st.logs ++ (run_kluster raw_files intel_result surface_result).logs
    apply List.mem_append_right
    rw [hrun_logs]
    simp

/-- Witness for C7 (amended) at a concrete raising handoff. -/
theorem kluster_process_failure_witness :
    (kluster_process
        { raw_data_path := "raw", processed_data_path := "raw_processed",
          grid_path := "raw_processed/export.bag" : ScrapeState }
        true ["a.all"] (KCall.raises "dask error") (fun _ => KCall.raises "no data")).grid_path
      = "" := by
  have h := kluster_process_failure_downgrades
    { raw_data_path := "raw", processed_data_path := "raw_processed",
      grid_path := "raw_processed/export.bag" : ScrapeState }
    ["a.all"] (KCall.raises "dask error") (fun _ => KCall.raises "no data")
    (by decide) (by decide) ⟨"no data", rfl⟩ (Or.inl ⟨"dask error", rfl⟩)
  exact h.2.2.1

end EsdProcess
